import Mathlib

/-!
Verification of the scraping program in `scraping.py` (Poke_Scraping).

The program is shallowly embedded: the HTML document handed to
BeautifulSoup is modelled as a tree of element and text nodes, and the
handful of BeautifulSoup operations the source uses (`find`, `find_next`,
`find_all`, `.text`, `.string`, attribute access) are modelled over that
tree.  Network responses are modelled by a `fetch` capability
`String → Response` passed to the functions that call `requests.get`;
the markup of a response is the already-parsed tree (the HTML text
parser itself is not modelled).  Python exceptions are modelled with
`Except`: every `raise`/crash path of the source becomes an
`Except.error` carrying a constructor named after the Python exception
it embeds.  Character case operations (`str.capitalize`) are modelled at
the ASCII level of `Char.toUpper`/`Char.toLower`.
-/

/-- An HTML node: an element with a tag name, attributes and children,
or a text node.  This models the BeautifulSoup document tree. -/
inductive Node where
  | elem (tag : String) (attrs : List (String × String)) (children : List Node)
  | text (s : String)
deriving Repr

/-- The children of a node (a text node has none). -/
def Node.children : Node → List Node
  | .elem _ _ cs => cs
  | .text _ => []

/-- The attributes of a node. -/
def Node.attrs : Node → List (String × String)
  | .elem _ a _ => a
  | .text _ => []

/-- Attribute lookup, modelling `tag.attrs` access / `tag['title']`. -/
def Node.getAttr (n : Node) (key : String) : Option String :=
  (n.attrs.find? (fun p => p.1 = key)).map (fun p => p.2)

/-- Whether the node is an element with the given tag name. -/
def Node.isTag (n : Node) (t : String) : Bool :=
  match n with
  | .elem tag _ _ => tag = t
  | .text _ => false

mutual
/-- Document-order (preorder) flattening of a subtree: the node itself
followed by all of its descendants.  This is BeautifulSoup's
`next_elements` order, which `find` and `find_next` traverse. -/
def preorder : Node → List Node
  | .text s => [.text s]
  | .elem t a cs => .elem t a cs :: preorderList cs
/-- Document-order flattening of a list of sibling subtrees. -/
def preorderList : List Node → List Node
  | [] => []
  | n :: ns => preorder n ++ preorderList ns
end

/-- All descendants of a node in document order (the node itself
excluded): the search space of `tag.find` / `tag.find_all`. -/
def Node.descendants (n : Node) : List Node :=
  preorderList n.children

mutual
/-- Concatenated text of a subtree, modelling BeautifulSoup `.text`. -/
def textContent : Node → String
  | .text s => s
  | .elem _ _ cs => textContentList cs
/-- Concatenated text of a list of sibling subtrees. -/
def textContentList : List Node → String
  | [] => ""
  | n :: ns => textContent n ++ textContentList ns
end

/-- BeautifulSoup `.string`: the single text child of a tag, descending
through lone element children; `none` when the tag has zero or several
children. -/
def nodeString : Node → Option String
  | .text s => some s
  | .elem _ _ [c] => nodeString c
  | .elem _ _ _ => none

/-- First node of a list satisfying `p`, together with its index:
models `soup.find(...)` over a document-order node list. -/
def findIdxNode (p : Node → Bool) : List Node → Option (Nat × Node)
  | [] => none
  | n :: ns =>
    if p n then some (0, n)
    else (findIdxNode p ns).map (fun r => (r.1 + 1, r.2))

/-- First node strictly after index `i` satisfying `p`: models
`element.find_next(...)`, which searches the document order after the
element (starting with the element's own descendants). -/
def findNext (flat : List Node) (i : Nat) (p : Node → Bool) : Option (Nat × Node) :=
  (findIdxNode p (flat.drop (i + 1))).map (fun r => (r.1 + i + 1, r.2))

/-- `tag.find_all(pred)`: all descendants satisfying `p`, in document
order. -/
def Node.findAll (n : Node) (p : Node → Bool) : List Node :=
  n.descendants.filter p

/-- `tag.find(pred)`: first descendant satisfying `p`. -/
def Node.findDesc (n : Node) (p : Node → Bool) : Option Node :=
  n.descendants.find? p

/-- BeautifulSoup `class_='c'` matching: the `class` attribute is a
space-separated list containing `c`. -/
def Node.hasClass (n : Node) (c : String) : Bool :=
  match n.getAttr "class" with
  | some v => (v.data.splitOn ' ').contains c.data
  | none => false

/-- Python `str.capitalize()` at ASCII level: first character
uppercased, every later character lowercased. -/
def pyCapitalize (s : String) : String :=
  match s.data with
  | [] => ""
  | c :: rest => ⟨c.toUpper :: rest.map Char.toLower⟩

/-- Python `str.strip()`: surrounding whitespace removed. -/
def pyStrip (s : String) : String :=
  ⟨((s.data.dropWhile Char.isWhitespace).reverse.dropWhile Char.isWhitespace).reverse⟩

/-- Removal of every occurrence of a (non-empty) pattern from a
character list: the character-level engine of `str.replace(pat, "")`.
Structural recursion on a fuel argument (each step consumes at least
one character, so fuel equal to the list length is always enough). -/
def removeSubstr (pat : List Char) : Nat → List Char → List Char
  | 0, cs => cs
  | _ + 1, [] => []
  | fuel + 1, c :: rest =>
    if pat ≠ [] ∧ pat.isPrefixOf (c :: rest) then
      removeSubstr pat fuel ((c :: rest).drop pat.length)
    else
      c :: removeSubstr pat fuel rest

/-- Python `s.replace(pat, "")` as the source uses it on type titles. -/
def pyRemove (s pat : String) : String :=
  ⟨removeSubstr pat.data s.data.length s.data⟩

/-- Python `int(s)`: optional surrounding whitespace, optional sign,
then at least one digit (digit-grouping underscores are not modelled). -/
def pyInt? (s : String) : Option Int :=
  match (pyStrip s).data with
  | [] => none
  | c :: rest =>
    let signed : Int × List Char :=
      if c = '-' then (-1, rest) else if c = '+' then (1, rest) else (1, c :: rest)
    if signed.2 ≠ [] ∧ signed.2.all Char.isDigit then
      some (signed.1 * (signed.2.foldl (fun n d => 10 * n + (d.toNat - 48)) 0 : Nat))
    else none

example : pyInt? "64" = some 64 := by decide
example : pyInt? "-3" = some (-3) := by decide
example : pyInt? "6a" = none := by decide
example : pyInt? "" = none := by decide
example : pyCapitalize "mewTwo" = "Mewtwo" := by decide
example : pyStrip "  Taille " = "Taille" := by decide
example : pyRemove "Feu (type)" " (type)" = "Feu" := by decide

/-- Python exceptions raised (or crash modes hit) by the source, one
constructor per distinct raise/crash site kind. -/
inductive Err where
  /-- `ValueError` for a 404 in `get_html_pokemon` (page does not exist). -/
  | notFound (pokemon_name : String)
  /-- generic `Exception` for any other non-200 status. -/
  | transport (status : Nat)
  /-- `ValueError` for a generation outside `GENERTAIONS_URL`. -/
  | invalidGeneration (generation : Nat)
  /-- `Exception` "Failed to locate the Pokémon table on the page." -/
  | structureNotFound
  /-- `AttributeError`: attribute access on a `find` that returned `None`. -/
  | attributeError
  /-- `UnboundLocalError`/`NameError`: a local read before any assignment. -/
  | nameError
  /-- `ValueError` from `int()` on a non-integer string. -/
  | valueError
deriving Repr, DecidableEq

/-- A `requests.get` response: status code and the page body, already in
document-tree form (the HTML text parser is not modelled). -/
structure Response where
  status : Nat
  body : Node

def POKEPEDIA : String := "https://pokepedia.fr/"

/-- The source's generation-to-page table (dict of 9 entries). -/
def GENERTAIONS_URL : List (Nat × String) :=
  [(1, "Liste_des_Pokémon_de_la_première_génération"),
   (2, "Liste_des_Pokémon_de_la_deuxième_génération"),
   (3, "Liste_des_Pokémon_de_la_troisième_génération"),
   (4, "Liste_des_Pokémon_de_la_quatrième_génération"),
   (5, "Liste_des_Pokémon_de_la_cinquième_génération"),
   (6, "Liste_des_Pokémon_de_la_sixième_génération"),
   (7, "Liste_des_Pokémon_de_la_septième_génération"),
   (8, "Liste_des_Pokémon_de_la_huitième_génération"),
   (9, "Liste_des_Pokémon_de_la_neuvième_génération")]

/-- `get_html_pokemon`: fetch a Pokémon page, 200 → body, 404 →
`ValueError`, otherwise a generic failure. -/
def get_html_pokemon (fetch : String → Response) (pokemon_name : String) :
    Except Err Node :=
  let response := fetch (POKEPEDIA ++ pokemon_name)
  if response.status = 200 then Except.ok response.body
  else if response.status = 404 then Except.error (Err.notFound pokemon_name)
  else Except.error (Err.transport response.status)

/-- `find('th', string=...)` matcher: a `th` whose BeautifulSoup
`.string` is one of the given label texts. -/
def isThString (labels : List String) (n : Node) : Bool :=
  n.isTag "th" && (match nodeString n with
    | some s => labels.contains s
    | none => false)

/-- The `find('h1')` matcher. -/
def isH1 (n : Node) : Bool := n.isTag "h1"

/-- The `find_next('td')` / `find_all('td')` matcher. -/
def isTd (n : Node) : Bool := n.isTag "td"

/-- The `find_all('tr')` matcher. -/
def isTr (n : Node) : Bool := n.isTag "tr"

/-- The `find_all('a')` matcher. -/
def isA (n : Node) : Bool := n.isTag "a"

/-- The `find('table', class_='tableaustandard')` matcher. -/
def isStdTable (n : Node) : Bool := n.isTag "table" && n.hasClass "tableaustandard"

/-- The `find('span', id="Statistiques")` matcher. -/
def isStatSpan (n : Node) : Bool :=
  n.isTag "span" && n.getAttr "id" == some "Statistiques"

/-- The `find('a', title="Statistique")` matcher of the stats rows. -/
def statMarker (n : Node) : Bool :=
  n.isTag "a" && n.getAttr "title" == some "Statistique"

/-- The `find('a', title=True)` matcher of the listing rows. -/
def titledAnchor (n : Node) : Bool :=
  n.isTag "a" && (n.getAttr "title").isSome

/-- The repeated `soup.find('th', string=label).find_next('td').text.strip()`
pattern of the height/weight extraction (lines 64-65): crashes with
`AttributeError` when the label cell or the following `td` is absent. -/
def labelValue (flat : List Node) (label : String) : Except Err String :=
  match findIdxNode (isThString [label]) flat with
  | none => Except.error Err.attributeError
  | some (i, _) =>
    match findNext flat i isTd with
    | none => Except.error Err.attributeError
    | some (_, td) => Except.ok (pyStrip (textContent td))

/-- The types list-comprehension of line 60-61: every contained link's
`title`, with `" (type)"` removed, joined with `"-"`. -/
def typesFromTd (td : Node) : String :=
  String.intercalate "-"
    (((td.findAll isA).filterMap (fun a => a.getAttr "title")).map
      (fun t => pyRemove t " (type)"))

/-- Python dict assignment `stats[stat_name] = stat_value` over an
insertion-ordered association list. -/
def dictInsert (d : List (String × Int)) (k : String) (v : Int) :
    List (String × Int) :=
  if d.any (fun p => p.1 == k) then
    d.map (fun p => if p.1 == k then (k, v) else p)
  else d ++ [(k, v)]

/-- One iteration of the stats-row loop (lines 76-85): rows without a
link titled "Statistique" are skipped; a marked row with at least two
`td` cells contributes the parsed integer of the second one, and a
non-integer there raises `ValueError` for the whole record. -/
def statStep (stats : List (String × Int)) (row : Node) :
    Except Err (List (String × Int)) :=
  match row.findDesc statMarker with
  | none => Except.ok stats
  | some stat_name_cell =>
    let stat_name := pyStrip (textContent stat_name_cell)
    match row.findAll isTd with
    | _ :: c1 :: _ =>
      match pyInt? (pyStrip (textContent c1)) with
      | some stat_value => Except.ok (dictInsert stats stat_name stat_value)
      | none => Except.error Err.valueError
    | _ => Except.ok stats

/-- Stats extraction (lines 69-85): locate the `span` with id
"Statistiques"; absent → empty stats; otherwise the next
`tableaustandard` table's rows are folded with `statStep`. -/
def statsOf (flat : List Node) : Except Err (List (String × Int)) :=
  match findIdxNode isStatSpan flat with
  | none => Except.ok []
  | some (i, _) =>
    match findNext flat i isStdTable with
    | none => Except.ok []
    | some (_, stats_table) =>
      (stats_table.findAll isTr).foldlM statStep []

/-- The record a successful `parse_html` returns. -/
structure PokemonInfo where
  name : String
  types : String
  height : String
  weight : String
  stats : List (String × Int)
deriving Repr, DecidableEq

/-- The types block (lines 57-61): when the label cell is found but no
`td` follows, `None.find_all` raises `AttributeError`; when the label
cell is absent the local stays unassigned (`Except.ok none` here). -/
def typesStep (flat : List Node) : Except Err (Option String) :=
  match findIdxNode (isThString ["Types", "Type"]) flat with
  | none => Except.ok none
  | some (i, _) =>
    match findNext flat i isTd with
    | none => Except.error Err.attributeError
    | some (_, td) => Except.ok (some (typesFromTd td))

/-- `parse_html` (lines 43-93).  The `types` local is assigned only
inside the `if types_section:` branch; when the label is absent the
final dict construction reads the unassigned local and raises
`UnboundLocalError` — modelled by carrying an `Option` through the
height/weight/stats steps and failing with `Err.nameError` at record
assembly, exactly where Python raises. -/
def parse_html (doc : Node) : Except Err PokemonInfo :=
  let flat := preorder doc
  match findIdxNode isH1 flat with
  | none => Except.error Err.attributeError
  | some (_, h1) =>
    let name := pyStrip (textContent h1)
    match typesStep flat with
    | .error e => .error e
    | .ok types? =>
      match labelValue flat "Taille" with
      | .error e => .error e
      | .ok height =>
        match labelValue flat "Poids" with
        | .error e => .error e
        | .ok weight =>
          match statsOf flat with
          | .error e => .error e
          | .ok stats =>
            match types? with
            | none => Except.error Err.nameError
            | some types =>
              Except.ok { name := name, types := types, height := height,
                          weight := weight, stats := stats }

/-- Per-row name extraction of the generation listing loop (lines
122-129): at least 3 `td` cells, then the first titled anchor of the
3rd cell's subtree gives the stripped `title`. -/
def rowName (row : Node) : Option String :=
  match (row.findAll isTd)[2]? with
  | none => none
  | some c2 =>
    match c2.findDesc titledAnchor with
    | none => none
    | some a => some (pyStrip ((a.getAttr "title").getD ""))

/-- `get_pokemons_from_generation` (lines 95-136).  The second
component of the result records the URLs passed to `requests.get`, so
that "no network access happened" is stated as an empty record. -/
def get_pokemons_from_generation (fetch : String → Response) (generation : Nat) :
    Except Err (List String) × List String :=
  match (GENERTAIONS_URL.find? (fun p => p.1 == generation)).map (fun p => p.2) with
  | none => (Except.error (Err.invalidGeneration generation), [])
  | some path =>
    let url := POKEPEDIA ++ path
    let response := fetch url
    if response.status = 200 then
      match findIdxNode isStdTable (preorder response.body) with
      | none => (Except.error Err.structureNotFound, [url])
      | some (_, table) =>
        let pokemon_list := (table.findAll isTr).filterMap rowName
        (Except.ok (pokemon_list.map pyCapitalize), [url])
    else (Except.error (Err.transport response.status), [url])

/-- The average-stat computation of lines 162-166 (`sum/len` when the
dict is non-empty, else 0).  Python's float division is modelled
exactly over `ℚ`; for the magnitudes involved the float comparison
against the integer thresholds agrees with the exact rational one. -/
def average_stats (stats : List (String × Int)) : ℚ :=
  if stats ≠ [] then ((stats.map (fun p => (p.2 : ℚ))).sum) / (stats.length : ℚ)
  else 0

/-- The devis thresholding of lines 168-176. -/
def compute_devis (stats : List (String × Int)) : String :=
  let avg := average_stats stats
  if avg ≤ 50 then "Pokéball"
  else if 50 < avg ∧ avg ≤ 100 then "Superball"
  else if 100 < avg ∧ avg ≤ 150 then "Hyperball"
  else "Masterball"

/-- A CSV row of `create_database`: the parsed record plus `devis`. -/
structure DatasetRow where
  name : String
  types : String
  height : String
  weight : String
  stats : List (String × Int)
  devis : String
deriving Repr, DecidableEq

/-- The body of the per-Pokémon `try` block of `create_database`
(lines 153-181): fetch, parse, classify, build the row. -/
def build_row (fetch : String → Response) (pokemon : String) :
    Except Err DatasetRow :=
  match get_html_pokemon fetch pokemon with
  | .error e => .error e
  | .ok html =>
    match parse_html html with
    | .error e => .error e
    | .ok pokemon_info =>
      Except.ok { name := pokemon_info.name, types := pokemon_info.types,
                  height := pokemon_info.height, weight := pokemon_info.weight,
                  stats := pokemon_info.stats,
                  devis := compute_devis pokemon_info.stats }

/-- One iteration of the roster loop of `create_database` (lines
152-183): the `except` clause swallows every failure of the `try` body
(`build_row`) and the loop continues with the next member.  The second
accumulator component records the URL each iteration fetches. -/
def db_step (fetch : String → Response) (acc : List DatasetRow × List String)
    (pokemon : String) : List DatasetRow × List String :=
  match build_row fetch pokemon with
  | .ok row => (acc.1 ++ [row], acc.2 ++ [POKEPEDIA ++ pokemon])
  | .error _ => (acc.1, acc.2 ++ [POKEPEDIA ++ pokemon])

/-- `create_database` (lines 138-183): roster retrieval, then the
per-member loop.  First result component: the rows written to the CSV
sink, or the roster-retrieval error; second: the fetched URLs. -/
def create_database (fetch : String → Response) (generation : Nat) :
    Except Err (List DatasetRow) × List String :=
  match get_pokemons_from_generation fetch generation with
  | (.error e, log) => (.error e, log)
  | (.ok all_pokemons, log) =>
    let result := all_pokemons.foldl (db_step fetch) (([] : List DatasetRow), log)
    (.ok result.1, result.2)

/-- `get_pokemon` (lines 186-200) with the interactive input passed as
an argument.  Line 191 computes `pokemon.strip().capitalize()` but
discards the result, so the raw input is fetched.  No `try`: any
failure of fetch or parse propagates to the caller (`main`). -/
def get_pokemon (fetch : String → Response) (pokemon : String) :
    Except Err PokemonInfo :=
  match get_html_pokemon fetch pokemon with
  | .error e => .error e
  | .ok html => parse_html html

deriving instance DecidableEq for Except

/-- A fetch capability that always fails with a 500: used to exhibit
results that cannot depend on the network. -/
def noFetch : String → Response :=
  fun _ => { status := 500, body := .text "" }

/-- The stats table of `pageBulbi`: one header row without the marker
link, then two marked stat rows. -/
def bulbiStatsTable : Node :=
  .elem "table" [("class", "tableaustandard")] [
    .elem "tr" [] [.elem "th" [] [.text "Stat"], .elem "th" [] [.text "Base"]],
    .elem "tr" [] [
      .elem "td" [] [.elem "a" [("title", "Statistique")] [.text "PV"]],
      .elem "td" [] [.text "45"]],
    .elem "tr" [] [
      .elem "td" [] [.elem "a" [("title", "Statistique")] [.text "Attaque"]],
      .elem "td" [] [.text "49"]]]

/-- A well-formed Pokémon page: heading, Types/Taille/Poids rows, and a
stats section followed by `bulbiStatsTable`. -/
def pageBulbi : Node :=
  .elem "html" [] [
    .elem "h1" [] [.text "Bulbizarre"],
    .elem "table" [("class", "tableauinfos")] [
      .elem "tr" [] [
        .elem "th" [] [.text "Types"],
        .elem "td" [] [
          .elem "a" [("title", "Plante (type)")] [.text "Plante"],
          .elem "a" [("title", "Poison (type)")] [.text "Poison"]]],
      .elem "tr" [] [
        .elem "th" [] [.text "Taille"],
        .elem "td" [] [.text "0,7 m"]],
      .elem "tr" [] [
        .elem "th" [] [.text "Poids"],
        .elem "td" [] [.text "6,9 kg"]]],
    .elem "span" [("id", "Statistiques")] [],
    bulbiStatsTable]

/-- The record `parse_html` extracts from `pageBulbi`. -/
def rowBulbi : PokemonInfo :=
  { name := "Bulbizarre", types := "Plante-Poison", height := "0,7 m",
    weight := "6,9 kg", stats := [("PV", 45), ("Attaque", 49)] }

example : parse_html pageBulbi = Except.ok rowBulbi := by decide

/-- A page with heading, Taille and Poids rows but no Types/Type label
cell at all (and no stats section). -/
def noTypesPage : Node :=
  .elem "html" [] [
    .elem "h1" [] [.text "Mystermon"],
    .elem "table" [("class", "tableauinfos")] [
      .elem "tr" [] [
        .elem "th" [] [.text "Taille"],
        .elem "td" [] [.text "1,0 m"]],
      .elem "tr" [] [
        .elem "th" [] [.text "Poids"],
        .elem "td" [] [.text "10,0 kg"]]]]

/-- A page whose first (and only) heading has no text, with every other
labelled row present. -/
def emptyNamePage : Node :=
  .elem "html" [] [
    .elem "h1" [] [],
    .elem "table" [("class", "tableauinfos")] [
      .elem "tr" [] [
        .elem "th" [] [.text "Types"],
        .elem "td" [] [.elem "a" [("title", "Feu (type)")] [.text "Feu"]],
        .elem "th" [] [.text "ignored"]],
      .elem "tr" [] [
        .elem "th" [] [.text "Taille"],
        .elem "td" [] [.text "1,7 m"]],
      .elem "tr" [] [
        .elem "th" [] [.text "Poids"],
        .elem "td" [] [.text "90,5 kg"]]]]

/-- A Types data cell holding exactly the two links titled
"Feu (type)" and "Vol (type)". -/
def feuVolTd : Node :=
  .elem "td" [] [
    .elem "a" [("title", "Feu (type)")] [.text "Feu"],
    .elem "a" [("title", "Vol (type)")] [.text "Vol"]]

/-- A page whose Types row holds `feuVolTd`. -/
def feuVolPage : Node :=
  .elem "html" [] [
    .elem "h1" [] [.text "Dracaufeu"],
    .elem "table" [("class", "tableauinfos")] [
      .elem "tr" [] [
        .elem "th" [] [.text "Types"],
        feuVolTd],
      .elem "tr" [] [
        .elem "th" [] [.text "Taille"],
        .elem "td" [] [.text "1,7 m"]],
      .elem "tr" [] [
        .elem "th" [] [.text "Poids"],
        .elem "td" [] [.text "90,5 kg"]]]]

/-- A page that is complete except that the Taille label cell is
missing entirely. -/
def noTaillePage : Node :=
  .elem "html" [] [
    .elem "h1" [] [.text "Badmon"],
    .elem "table" [("class", "tableauinfos")] [
      .elem "tr" [] [
        .elem "th" [] [.text "Types"],
        .elem "td" [] [.elem "a" [("title", "Eau (type)")] [.text "Eau"]]],
      .elem "tr" [] [
        .elem "th" [] [.text "Poids"],
        .elem "td" [] [.text "8,0 kg"]]]]

/-- A stats table whose single marked row carries a non-integer value
in its second data cell. -/
def nonIntStatsTable : Node :=
  .elem "table" [("class", "tableaustandard")] [
    .elem "tr" [] [
      .elem "td" [] [.elem "a" [("title", "Statistique")] [.text "PV"]],
      .elem "td" [] [.text "quarante"]]]

/-- A page that is well-formed except that its stats table is
`nonIntStatsTable`. -/
def nonIntStatsPage : Node :=
  .elem "html" [] [
    .elem "h1" [] [.text "Cassmon"],
    .elem "table" [("class", "tableauinfos")] [
      .elem "tr" [] [
        .elem "th" [] [.text "Types"],
        .elem "td" [] [.elem "a" [("title", "Eau (type)")] [.text "Eau"]]],
      .elem "tr" [] [
        .elem "th" [] [.text "Taille"],
        .elem "td" [] [.text "1,0 m"]],
      .elem "tr" [] [
        .elem "th" [] [.text "Poids"],
        .elem "td" [] [.text "10,0 kg"]]],
    .elem "span" [("id", "Statistiques")] [],
    nonIntStatsTable]

/-- The recognized table of a generation-listing page: two rows that do
not have 3 `td` cells, then three valid rows whose 3rd cell carries a
titled anchor (one title with an internal capital). -/
def gen1Table : Node :=
  .elem "table" [("class", "tableaustandard")] [
    .elem "tr" [] [.elem "th" [] [.text "Numéro"], .elem "th" [] [.text "Nom"]],
    .elem "tr" [] [.elem "td" [] [.text "décoration"]],
    .elem "tr" [] [
      .elem "td" [] [.text "001"],
      .elem "td" [] [.text "img"],
      .elem "td" [] [.elem "a" [("title", "bulbizarre")] [.text "Bulbizarre"]]],
    .elem "tr" [] [
      .elem "td" [] [.text "002"],
      .elem "td" [] [.text "img"],
      .elem "td" [] [.elem "a" [("title", "herbiZarre")] [.text "Herbizarre"]]],
    .elem "tr" [] [
      .elem "td" [] [.text "003"],
      .elem "td" [] [.text "img"],
      .elem "td" [] [.elem "a" [("title", "florizarre")] [.text "Florizarre"]]]]

/-- A generation-listing page around `gen1Table`. -/
def gen1Page : Node :=
  .elem "html" [] [
    .elem "h1" [] [.text "Liste des Pokémon de la première génération"],
    gen1Table]

/-- A listing page with five valid rows (titles mona..mone). -/
def gen5Page : Node :=
  .elem "html" [] [
    .elem "h1" [] [.text "Liste"],
    .elem "table" [("class", "tableaustandard")] [
      .elem "tr" [] [
        .elem "td" [] [.text "1"], .elem "td" [] [.text "i"],
        .elem "td" [] [.elem "a" [("title", "mona")] [.text "Mona"]]],
      .elem "tr" [] [
        .elem "td" [] [.text "2"], .elem "td" [] [.text "i"],
        .elem "td" [] [.elem "a" [("title", "monb")] [.text "Monb"]]],
      .elem "tr" [] [
        .elem "td" [] [.text "3"], .elem "td" [] [.text "i"],
        .elem "td" [] [.elem "a" [("title", "monc")] [.text "Monc"]]],
      .elem "tr" [] [
        .elem "td" [] [.text "4"], .elem "td" [] [.text "i"],
        .elem "td" [] [.elem "a" [("title", "mond")] [.text "Mond"]]],
      .elem "tr" [] [
        .elem "td" [] [.text "5"], .elem "td" [] [.text "i"],
        .elem "td" [] [.elem "a" [("title", "mone")] [.text "Mone"]]]]]

/-- A listing page with two valid rows (titles badmon, bulbizarre). -/
def gen2Page : Node :=
  .elem "html" [] [
    .elem "h1" [] [.text "Liste"],
    .elem "table" [("class", "tableaustandard")] [
      .elem "tr" [] [
        .elem "td" [] [.text "1"], .elem "td" [] [.text "i"],
        .elem "td" [] [.elem "a" [("title", "badmon")] [.text "Badmon"]]],
      .elem "tr" [] [
        .elem "td" [] [.text "2"], .elem "td" [] [.text "i"],
        .elem "td" [] [.elem "a" [("title", "bulbizarre")] [.text "Bulbizarre"]]]]]

/-- The listing URL of generation 1. -/
def gen1Url : String := POKEPEDIA ++ "Liste_des_Pokémon_de_la_première_génération"

/-- Serves `gen1Page` as the generation-1 listing and `pageBulbi` for
the three listed members. -/
def genFetch : String → Response := fun url =>
  if url = gen1Url then { status := 200, body := gen1Page }
  else if url = POKEPEDIA ++ "Bulbizarre" then { status := 200, body := pageBulbi }
  else if url = POKEPEDIA ++ "Herbizarre" then { status := 200, body := pageBulbi }
  else if url = POKEPEDIA ++ "Florizarre" then { status := 200, body := pageBulbi }
  else { status := 404, body := .text "" }

/-- Serves a five-member generation-1 roster; the fetch of the third
member ("Monc") fails with a 404 and every other member parses. -/
def fetch5 : String → Response := fun url =>
  if url = gen1Url then { status := 200, body := gen5Page }
  else if url = POKEPEDIA ++ "Monc" then { status := 404, body := .text "" }
  else if url = POKEPEDIA ++ "Mona" then { status := 200, body := pageBulbi }
  else if url = POKEPEDIA ++ "Monb" then { status := 200, body := pageBulbi }
  else if url = POKEPEDIA ++ "Mond" then { status := 200, body := pageBulbi }
  else if url = POKEPEDIA ++ "Mone" then { status := 200, body := pageBulbi }
  else { status := 404, body := .text "" }

/-- Serves a two-member roster whose first member's page is missing its
Taille label cell and whose second member's page is well-formed. -/
def mixFetch : String → Response := fun url =>
  if url = gen1Url then { status := 200, body := gen2Page }
  else if url = POKEPEDIA ++ "Badmon" then { status := 200, body := noTaillePage }
  else if url = POKEPEDIA ++ "Bulbizarre" then { status := 200, body := pageBulbi }
  else { status := 404, body := .text "" }

/-! ## Helper lemmas -/

/-- The rows accumulated by the `create_database` loop are exactly the
successful `build_row` results, in roster order. -/
lemma db_loop_rows (fetch : String → Response) (ps : List String) :
    ∀ acc : List DatasetRow × List String,
      (ps.foldl (db_step fetch) acc).1 =
        acc.1 ++ ps.filterMap (fun p => (build_row fetch p).toOption) := by
  induction ps with
  | nil => intro acc; simp
  | cons p ps ih =>
    intro acc
    cases h : build_row fetch p with
    | ok row => simp [db_step, h, ih, Except.toOption]
    | error e => simp [db_step, h, ih, Except.toOption]

/-- Length of a `filterMap` as a success count. -/
lemma length_filterMap_countP {α β : Type} (f : α → Option β) (l : List α) :
    (l.filterMap f).length = l.countP (fun a => (f a).isSome) := by
  induction l with
  | nil => simp
  | cons a l ih => cases h : f a <;> simp [h, ih, List.countP_cons]

/-- Inversion of a successful `parse_html`: every extraction step
succeeded and produced the record's fields. -/
lemma parse_html_ok_inv (doc : Node) (r : PokemonInfo)
    (h : parse_html doc = Except.ok r) :
    (findIdxNode isH1 (preorder doc)).map (fun x => pyStrip (textContent x.2)) =
      some r.name ∧
    typesStep (preorder doc) = Except.ok (some r.types) ∧
    labelValue (preorder doc) "Taille" = Except.ok r.height ∧
    labelValue (preorder doc) "Poids" = Except.ok r.weight ∧
    statsOf (preorder doc) = Except.ok r.stats := by
  simp only [parse_html] at h
  cases hh : findIdxNode isH1 (preorder doc) with
  | none =>
    simp only [hh] at h
    cases h
  | some x =>
    obtain ⟨i, h1⟩ := x
    simp only [hh] at h
    cases ht : typesStep (preorder doc) with
    | error e =>
      simp only [ht] at h
      cases h
    | ok types? =>
      simp only [ht] at h
      cases hta : labelValue (preorder doc) "Taille" with
      | error e =>
        simp only [hta] at h
        cases h
      | ok height =>
        simp only [hta] at h
        cases hpo : labelValue (preorder doc) "Poids" with
        | error e =>
          simp only [hpo] at h
          cases h
        | ok weight =>
          simp only [hpo] at h
          cases hst : statsOf (preorder doc) with
          | error e =>
            simp only [hst] at h
            cases h
          | ok stats =>
            simp only [hst] at h
            cases types? with
            | none => simp at h
            | some types =>
              simp only [] at h
              injection h with h
              subst h
              simp [hh, ht, hta, hpo, hst]

/-- The only failure `typesStep` can produce is the `AttributeError` of
`None.find_all` (label found, no following `td`). -/
lemma typesStep_error_eq (flat : List Node) (e : Err)
    (h : typesStep flat = Except.error e) : e = Err.attributeError := by
  cases hf : findIdxNode (isThString ["Types", "Type"]) flat with
  | none =>
    simp only [typesStep, hf] at h
    cases h
  | some x =>
    obtain ⟨i, th⟩ := x
    cases hn : findNext flat i isTd with
    | none =>
      simp only [typesStep, hf, hn] at h
      injection h with h
      exact h.symm
    | some y =>
      simp only [typesStep, hf, hn] at h
      cases h

/-- The only failure `labelValue` can produce is an `AttributeError`. -/
lemma labelValue_error_eq (flat : List Node) (label : String) (e : Err)
    (h : labelValue flat label = Except.error e) : e = Err.attributeError := by
  cases hf : findIdxNode (isThString [label]) flat with
  | none =>
    simp only [labelValue, hf] at h
    injection h with h
    exact h.symm
  | some x =>
    obtain ⟨i, th⟩ := x
    cases hn : findNext flat i isTd with
    | none =>
      simp only [labelValue, hf, hn] at h
      injection h with h
      exact h.symm
    | some y =>
      simp only [labelValue, hf, hn] at h
      cases h

/-! ## Claims -/

/-- C1: the classification is a total function of the stats mapping
computing `avg = sum/count` (0 when empty), with inclusive upper
thresholds — `avg ≤ 50` Pokéball, `50 < avg ≤ 100` Superball,
`100 < avg ≤ 150` Hyperball, `avg > 150` Masterball — and the spec's
five concrete examples hold. -/
theorem classify_spec (stats : List (String × Int)) :
    (average_stats [] = 0) ∧
    (stats ≠ [] → average_stats stats =
      ((stats.map (fun p => (p.2 : ℚ))).sum) / (stats.length : ℚ)) ∧
    (average_stats stats ≤ 50 → compute_devis stats = "Pokéball") ∧
    (50 < average_stats stats → average_stats stats ≤ 100 →
      compute_devis stats = "Superball") ∧
    (100 < average_stats stats → average_stats stats ≤ 150 →
      compute_devis stats = "Hyperball") ∧
    (150 < average_stats stats → compute_devis stats = "Masterball") ∧
    compute_devis [] = "Pokéball" ∧
    compute_devis [("hp", 50)] = "Pokéball" ∧
    compute_devis [("hp", 51)] = "Superball" ∧
    compute_devis [("hp", 150)] = "Hyperball" ∧
    compute_devis [("hp", 151)] = "Masterball" := by
  refine ⟨by simp [average_stats], fun h => by simp [average_stats, h],
    ?_, ?_, ?_, ?_, ?_, ?_, ?_, ?_, ?_⟩
  · intro h
    simp only [compute_devis]
    rw [if_pos h]
  · intro h1 h2
    simp only [compute_devis]
    rw [if_neg (not_le.mpr h1), if_pos ⟨h1, h2⟩]
  · intro h1 h2
    simp only [compute_devis]
    rw [if_neg (not_le.mpr (lt_trans (by norm_num) h1)),
        if_neg (fun hc => (not_lt.mpr hc.2) h1), if_pos ⟨h1, h2⟩]
  · intro h1
    simp only [compute_devis]
    rw [if_neg (not_le.mpr (lt_trans (by norm_num) h1)),
        if_neg (fun hc => (not_lt.mpr hc.2) (lt_trans (by norm_num) h1)),
        if_neg (fun hc => (not_lt.mpr hc.2) h1)]
  · norm_num [compute_devis, average_stats]
  · norm_num [compute_devis, average_stats]
  · norm_num [compute_devis, average_stats]
  · norm_num [compute_devis, average_stats]
  · norm_num [compute_devis, average_stats]

/-- Witness for C1 at the concrete stats mapping `{"hp": 151}`. -/
theorem classify_spec_witness :
    150 < average_stats [("hp", 151)] ∧
    compute_devis [("hp", 151)] = "Masterball" :=
  ⟨by simp [average_stats]; decide,
   (classify_spec [("hp", 151)]).2.2.2.2.2.1 (by simp [average_stats]; decide)⟩

/-- C2: failures of single roster members (fetch or parse) are caught
inside the loop and the batch continues — `create_database` errors
exactly when roster retrieval errors, its row list is the list of
successful `build_row` results, and a 5-member roster with exactly 4
successes yields exactly 4 rows. -/
theorem dataset_build_failure_isolation (fetch : String → Response) (generation : Nat) :
    (∀ e, (create_database fetch generation).1 = Except.error e ↔
        (get_pokemons_from_generation fetch generation).1 = Except.error e) ∧
    (∀ roster log,
      get_pokemons_from_generation fetch generation = (Except.ok roster, log) →
      (create_database fetch generation).1 =
        Except.ok (roster.filterMap (fun p => (build_row fetch p).toOption)) ∧
      (roster.filterMap (fun p => (build_row fetch p).toOption)).length =
        roster.countP (fun p => (build_row fetch p).toOption.isSome) ∧
      (roster.length = 5 →
        roster.countP (fun p => (build_row fetch p).toOption.isSome) = 4 →
        ∃ rows, (create_database fetch generation).1 = Except.ok rows ∧
          rows.length = 4)) := by
  rcases hgp : get_pokemons_from_generation fetch generation with ⟨res, log0⟩
  cases res with
  | error e0 =>
    constructor
    · intro e
      simp [create_database, hgp]
    · intro roster log h
      simp at h
  | ok roster0 =>
    have hrows : (create_database fetch generation).1 =
        Except.ok (roster0.filterMap (fun p => (build_row fetch p).toOption)) := by
      simp [create_database, hgp, db_loop_rows]
    constructor
    · intro e
      simp [hrows, hgp]
    · intro roster log h
      rw [Prod.mk.injEq] at h
      obtain ⟨h1, h2⟩ := h
      injection h1 with h1
      subst h1
      refine ⟨hrows, length_filterMap_countP _ _, ?_⟩
      intro _ hcount
      exact ⟨_, hrows, by rw [length_filterMap_countP, hcount]⟩

/-- Witness for C2: under `fetch5` the generation-1 roster has 5
members, the fetch of exactly one of them (Monc) fails, and the
database holds exactly 4 rows. -/
theorem dataset_build_failure_isolation_witness :
    get_pokemons_from_generation fetch5 1 =
      (Except.ok ["Mona", "Monb", "Monc", "Mond", "Mone"], [gen1Url]) ∧
    (["Mona", "Monb", "Monc", "Mond", "Mone"] : List String).length = 5 ∧
    (["Mona", "Monb", "Monc", "Mond", "Mone"] : List String).countP
      (fun p => (build_row fetch5 p).toOption.isSome) = 4 ∧
    ∃ rows, (create_database fetch5 1).1 = Except.ok rows ∧ rows.length = 4 := by
  have hget : get_pokemons_from_generation fetch5 1 =
      (Except.ok ["Mona", "Monb", "Monc", "Mond", "Mone"], [gen1Url]) := by decide
  have h5 : (["Mona", "Monb", "Monc", "Mond", "Mone"] : List String).length = 5 := by decide
  have hc : (["Mona", "Monb", "Monc", "Mond", "Mone"] : List String).countP
      (fun p => (build_row fetch5 p).toOption.isSome) = 4 := by decide
  exact ⟨hget, h5, hc,
    ((dataset_build_failure_isolation fetch5 1).2 _ _ hget).2.2 h5 hc⟩

/-- C3: the claim says a missing Types/Type label cell yields a record
with empty types and no failure; the code instead leaves the `types`
local unassigned and the record construction raises
`UnboundLocalError` — exhibited on `noTypesPage`, which has no
Types/Type label cell. -/
theorem types_label_absent_crashes :
    findIdxNode (isThString ["Types", "Type"]) (preorder noTypesPage) = none ∧
    parse_html noTypesPage = Except.error Err.nameError :=
  ⟨by rfl, by decide⟩

/-- C4 counterexample: a markup whose heading is empty produces a
record with an empty `name` and no failure, refuting "the returned
record's name field is non-empty". -/
theorem nonempty_name_counterexample :
    parse_html emptyNamePage = Except.ok
      { name := "", types := "Feu", height := "1,7 m", weight := "90,5 kg",
        stats := [] } := by decide

/-- C4 amended: the record parser fails exactly when the markup has no
top-level heading; when a heading exists, the returned record's name is
the trimmed text of the first heading — which may be empty. -/
theorem name_extraction (doc : Node) :
    (findIdxNode isH1 (preorder doc) = none →
      parse_html doc = Except.error Err.attributeError) ∧
    (∀ i h1 r, findIdxNode isH1 (preorder doc) = some (i, h1) →
      parse_html doc = Except.ok r → r.name = pyStrip (textContent h1)) := by
  constructor
  · intro h
    simp [parse_html, h]
  · intro i h1 r hfind hok
    have hinv := (parse_html_ok_inv doc r hok).1
    rw [hfind] at hinv
    simpa using hinv.symm

/-- Witness for C4's amended claim at `pageBulbi`. -/
theorem name_extraction_witness :
    findIdxNode isH1 (preorder pageBulbi) =
      some (1, Node.elem "h1" [] [Node.text "Bulbizarre"]) ∧
    parse_html pageBulbi = Except.ok rowBulbi ∧
    rowBulbi.name = pyStrip (textContent (Node.elem "h1" [] [Node.text "Bulbizarre"])) := by
  have hfind : findIdxNode isH1 (preorder pageBulbi) =
      some (1, Node.elem "h1" [] [Node.text "Bulbizarre"]) := by rfl
  have hok : parse_html pageBulbi = Except.ok rowBulbi := by decide
  exact ⟨hfind, hok, (name_extraction pageBulbi).2 1 _ rowBulbi hfind hok⟩

/-- C6: when the Taille (or Poids) label cell is missing the record
parser fails with the `AttributeError` crash; the same failure is
caught at the batch loop (build still returns rows once the roster
resolved) but propagates uncaught through the single-lookup path. -/
theorem taille_poids_crash_isolation (doc : Node)
    (hmiss : findIdxNode (isThString ["Taille"]) (preorder doc) = none ∨
             findIdxNode (isThString ["Poids"]) (preorder doc) = none) :
    parse_html doc = Except.error Err.attributeError ∧
    (∀ fetch pokemon, fetch (POKEPEDIA ++ pokemon) = { status := 200, body := doc } →
      get_pokemon fetch pokemon = Except.error Err.attributeError) ∧
    (∀ fetch generation (roster log : List String),
      get_pokemons_from_generation fetch generation = (Except.ok roster, log) →
      ∃ rows, (create_database fetch generation).1 = Except.ok rows) := by
  have hparse : parse_html doc = Except.error Err.attributeError := by
    cases hh : findIdxNode isH1 (preorder doc) with
    | none => simp [parse_html, hh]
    | some x =>
      obtain ⟨i0, h1⟩ := x
      cases ht : typesStep (preorder doc) with
      | error e =>
        have he := typesStep_error_eq _ _ ht
        subst he
        simp [parse_html, hh, ht]
      | ok types? =>
        cases hmiss with
        | inl hT =>
          have hlv : labelValue (preorder doc) "Taille" =
              Except.error Err.attributeError := by
            simp [labelValue, hT]
          simp [parse_html, hh, ht, hlv]
        | inr hP =>
          cases hta : labelValue (preorder doc) "Taille" with
          | error e =>
            have he := labelValue_error_eq _ _ _ hta
            subst he
            simp [parse_html, hh, ht, hta]
          | ok height =>
            have hlv : labelValue (preorder doc) "Poids" =
                Except.error Err.attributeError := by
              simp [labelValue, hP]
            simp [parse_html, hh, ht, hta, hlv]
  refine ⟨hparse, ?_, ?_⟩
  · intro fetch pokemon hf
    simp [get_pokemon, get_html_pokemon, hf, hparse]
  · intro fetch generation roster log h
    refine ⟨roster.filterMap (fun p => (build_row fetch p).toOption), ?_⟩
    simp [create_database, h, db_loop_rows]

/-- Witness for C6: `noTaillePage` (no Taille label) makes the item
fail, `get_pokemon` surfaces that failure, and the two-member batch
under `mixFetch` still completes. -/
theorem taille_poids_crash_isolation_witness :
    (findIdxNode (isThString ["Taille"]) (preorder noTaillePage) = none ∨
     findIdxNode (isThString ["Poids"]) (preorder noTaillePage) = none) ∧
    parse_html noTaillePage = Except.error Err.attributeError ∧
    mixFetch (POKEPEDIA ++ "Badmon") = { status := 200, body := noTaillePage } ∧
    get_pokemon mixFetch "Badmon" = Except.error Err.attributeError ∧
    get_pokemons_from_generation mixFetch 1 =
      (Except.ok ["Badmon", "Bulbizarre"], [gen1Url]) ∧
    ∃ rows, (create_database mixFetch 1).1 = Except.ok rows := by
  have hmiss : findIdxNode (isThString ["Taille"]) (preorder noTaillePage) = none := by rfl
  have hf : mixFetch (POKEPEDIA ++ "Badmon") =
      { status := 200, body := noTaillePage } := by rfl
  have hg : get_pokemons_from_generation mixFetch 1 =
      (Except.ok ["Badmon", "Bulbizarre"], [gen1Url]) := by decide
  obtain ⟨p1, p2, p3⟩ := taille_poids_crash_isolation noTaillePage (Or.inl hmiss)
  exact ⟨Or.inl hmiss, p1, hf, p2 mixFetch "Badmon" hf, hg, p3 mixFetch 1 _ _ hg⟩

/-- C8: for any generation outside 1..9 both the roster retrieval and
the dataset build fail with the invalid-generation error while the
fetch log stays empty — the fetch capability is never invoked,
whatever it is. -/
theorem invalid_generation_no_fetch (fetch : String → Response) (g : Nat)
    (hg : ¬(1 ≤ g ∧ g ≤ 9)) :
    get_pokemons_from_generation fetch g = (Except.error (Err.invalidGeneration g), []) ∧
    create_database fetch g = (Except.error (Err.invalidGeneration g), []) := by
  have hfind : GENERTAIONS_URL.find? (fun p => p.1 == g) = none := by
    rw [List.find?_eq_none]
    intro p hp
    simp [GENERTAIONS_URL] at hp
    rcases hp with h|h|h|h|h|h|h|h|h <;> subst h <;> simp <;> omega
  have h1 : get_pokemons_from_generation fetch g =
      (Except.error (Err.invalidGeneration g), []) := by
    simp [get_pokemons_from_generation, hfind]
  exact ⟨h1, by simp [create_database, h1]⟩

/-- Witness for C8 at generations 0 and 10. -/
theorem invalid_generation_no_fetch_witness :
    (¬(1 ≤ 0 ∧ 0 ≤ 9) ∧
      create_database noFetch 0 = (Except.error (Err.invalidGeneration 0), [])) ∧
    (¬(1 ≤ 10 ∧ 10 ≤ 9) ∧
      create_database noFetch 10 = (Except.error (Err.invalidGeneration 10), [])) :=
  ⟨⟨by decide, (invalid_generation_no_fetch noFetch 0 (by decide)).2⟩,
   ⟨by decide, (invalid_generation_no_fetch noFetch 10 (by decide)).2⟩⟩

/-- C9: the types field of a parsed record is the hyphen-join of the
Types cell's link titles with the fixed suffix " (type)" removed; with
exactly two links titled "Feu (type)" and "Vol (type)" it is
"Feu-Vol". -/
theorem types_round_trip (doc : Node) (i j : Nat) (th td : Node)
    (hth : findIdxNode (isThString ["Types", "Type"]) (preorder doc) = some (i, th))
    (htd : findNext (preorder doc) i isTd = some (j, td)) :
    (∀ r, parse_html doc = Except.ok r → r.types = typesFromTd td) ∧
    (∀ t1 t2, (td.findAll isA).filterMap (fun a => a.getAttr "title") = [t1, t2] →
      typesFromTd td = pyRemove t1 " (type)" ++ "-" ++ pyRemove t2 " (type)") ∧
    pyRemove "Feu (type)" " (type)" = "Feu" ∧
    pyRemove "Vol (type)" " (type)" = "Vol" := by
  refine ⟨?_, ?_, by decide, by decide⟩
  · intro r hok
    have hinv := (parse_html_ok_inv doc r hok).2.1
    simp only [typesStep, hth, htd] at hinv
    simpa using hinv.symm
  · intro t1 t2 hts
    simp only [typesFromTd, hts]
    rfl

/-- Witness for C9 at `feuVolPage`: the parsed record's types field is
"Feu-Vol". -/
theorem types_round_trip_witness :
    findIdxNode (isThString ["Types", "Type"]) (preorder feuVolPage) =
      some (5, Node.elem "th" [] [Node.text "Types"]) ∧
    findNext (preorder feuVolPage) 5 isTd = some (7, feuVolTd) ∧
    parse_html feuVolPage = Except.ok
      { name := "Dracaufeu", types := "Feu-Vol", height := "1,7 m",
        weight := "90,5 kg", stats := [] } ∧
    typesFromTd feuVolTd = "Feu-Vol" ∧
    ({ name := "Dracaufeu", types := "Feu-Vol", height := "1,7 m",
       weight := "90,5 kg", stats := [] } : PokemonInfo).types = typesFromTd feuVolTd := by
  have hth : findIdxNode (isThString ["Types", "Type"]) (preorder feuVolPage) =
      some (5, Node.elem "th" [] [Node.text "Types"]) := by rfl
  have htd : findNext (preorder feuVolPage) 5 isTd = some (7, feuVolTd) := by rfl
  have hok : parse_html feuVolPage = Except.ok
      { name := "Dracaufeu", types := "Feu-Vol", height := "1,7 m",
        weight := "90,5 kg", stats := [] } := by decide
  exact ⟨hth, htd, hok, by decide,
    (types_round_trip feuVolPage 5 7 _ feuVolTd hth htd).1 _ hok⟩

/-- C5: the generation index parser returns exactly the stripped
3rd-cell anchor titles of the valid rows of the recognized table, first
letter capitalized, in original row order; rows with fewer than 3 cells
or without a titled anchor are skipped without error, and zero valid
rows give the empty list rather than a failure. -/
theorem generation_index_extraction
    (fetch : String → Response) (generation : Nat) (path : String)
    (hgen : (GENERTAIONS_URL.find? (fun p => p.1 == generation)).map (fun p => p.2) =
      some path)
    (i : Nat) (table : Node)
    (hstatus : (fetch (POKEPEDIA ++ path)).status = 200)
    (htable : findIdxNode isStdTable (preorder (fetch (POKEPEDIA ++ path)).body) =
      some (i, table)) :
    (get_pokemons_from_generation fetch generation).1 =
      Except.ok (((table.findAll isTr).filterMap rowName).map pyCapitalize) ∧
    ((table.findAll isTr).filterMap rowName = [] →
      (get_pokemons_from_generation fetch generation).1 = Except.ok []) ∧
    (∀ row, (row.findAll isTd).length < 3 → rowName row = none) ∧
    (∀ row c2, (row.findAll isTd)[2]? = some c2 → c2.findDesc titledAnchor = none →
      rowName row = none) ∧
    (∀ row c2 a t, (row.findAll isTd)[2]? = some c2 →
      c2.findDesc titledAnchor = some a → a.getAttr "title" = some t →
      rowName row = some (pyStrip t)) := by
  have hmain : (get_pokemons_from_generation fetch generation).1 =
      Except.ok (((table.findAll isTr).filterMap rowName).map pyCapitalize) := by
    simp [get_pokemons_from_generation, hgen, hstatus, htable]
  refine ⟨hmain, ?_, ?_, ?_, ?_⟩
  · intro hempty
    rw [hmain, hempty]
    rfl
  · intro row hlen
    have h2 : (row.findAll isTd)[2]? = none := List.getElem?_eq_none (by omega)
    simp [rowName, h2]
  · intro row c2 h1 h2
    simp [rowName, h1, h2]
  · intro row c2 a t h1 h2 h3
    simp [rowName, h1, h2, h3]

/-- Witness for C5: `gen1Table` has two invalid rows and three valid
rows and the parser returns exactly the three capitalized names in
order. -/
theorem generation_index_extraction_witness :
    (GENERTAIONS_URL.find? (fun p => p.1 == 1)).map (fun p => p.2) =
      some "Liste_des_Pokémon_de_la_première_génération" ∧
    (genFetch (POKEPEDIA ++ "Liste_des_Pokémon_de_la_première_génération")).status = 200 ∧
    findIdxNode isStdTable
      (preorder (genFetch (POKEPEDIA ++ "Liste_des_Pokémon_de_la_première_génération")).body) =
      some (3, gen1Table) ∧
    ((gen1Table.findAll isTr).filterMap rowName).map pyCapitalize =
      ["Bulbizarre", "Herbizarre", "Florizarre"] ∧
    (get_pokemons_from_generation genFetch 1).1 =
      Except.ok (((gen1Table.findAll isTr).filterMap rowName).map pyCapitalize) := by
  have hgen : (GENERTAIONS_URL.find? (fun p => p.1 == 1)).map (fun p => p.2) =
      some "Liste_des_Pokémon_de_la_première_génération" := by rfl
  have hstatus :
      (genFetch (POKEPEDIA ++ "Liste_des_Pokémon_de_la_première_génération")).status = 200 := by
    rfl
  have htable : findIdxNode isStdTable
      (preorder (genFetch (POKEPEDIA ++ "Liste_des_Pokémon_de_la_première_génération")).body) =
      some (3, gen1Table) := by rfl
  exact ⟨hgen, hstatus, htable, by decide,
    (generation_index_extraction genFetch 1 _ hgen 3 gen1Table hstatus htable).1⟩

/-- C7: stats rows without the "Statistique" marker link are skipped;
a marked row contributes the stat named by the link's text with the
integer parsed from its 2nd data cell; a non-integer value there fails
the whole record (no partial stats is ever returned); and with the
Statistiques section absent a returned record has empty stats. -/
theorem stats_extraction (doc : Node) :
    (findIdxNode isStatSpan (preorder doc) = none →
      ∀ r, parse_html doc = Except.ok r → r.stats = []) ∧
    (∀ i s, findIdxNode isStatSpan (preorder doc) = some (i, s) →
      (findNext (preorder doc) i isStdTable = none →
        ∀ r, parse_html doc = Except.ok r → r.stats = []) ∧
      (∀ j T, findNext (preorder doc) i isStdTable = some (j, T) →
        (∀ r, parse_html doc = Except.ok r →
          (T.findAll isTr).foldlM statStep [] = Except.ok r.stats) ∧
        ((T.findAll isTr).foldlM statStep ([] : List (String × Int)) =
            Except.error Err.valueError →
          ∀ r, parse_html doc ≠ Except.ok r))) ∧
    (∀ stats row, row.findDesc statMarker = none → statStep stats row = Except.ok stats) ∧
    (∀ stats row cell, row.findDesc statMarker = some cell →
      ∀ c0 c1 rest, row.findAll isTd = c0 :: c1 :: rest →
        (∀ v, pyInt? (pyStrip (textContent c1)) = some v →
          statStep stats row = Except.ok
            (dictInsert stats (pyStrip (textContent cell)) v)) ∧
        (pyInt? (pyStrip (textContent c1)) = none →
          statStep stats row = Except.error Err.valueError)) := by
  refine ⟨?_, ?_, ?_, ?_⟩
  · intro hnone r hok
    have hinv := (parse_html_ok_inv doc r hok).2.2.2.2
    simp only [statsOf, hnone] at hinv
    injection hinv with hinv
    exact hinv.symm
  · intro i s hspan
    constructor
    · intro hnoT r hok
      have hinv := (parse_html_ok_inv doc r hok).2.2.2.2
      simp only [statsOf, hspan, hnoT] at hinv
      injection hinv with hinv
      exact hinv.symm
    · intro j T hT
      constructor
      · intro r hok
        have hinv := (parse_html_ok_inv doc r hok).2.2.2.2
        simp only [statsOf, hspan, hT] at hinv
        exact hinv
      · intro herr r hok
        have hinv := (parse_html_ok_inv doc r hok).2.2.2.2
        simp only [statsOf, hspan, hT] at hinv
        rw [herr] at hinv
        cases hinv
  · intro stats row hnone
    simp [statStep, hnone]
  · intro stats row cell hcell c0 c1 rest htds
    constructor
    · intro v hv
      simp [statStep, hcell, htds, hv]
    · intro hv
      simp [statStep, hcell, htds, hv]

/-- Witness for C7 at `pageBulbi` (marked and unmarked rows, integer
values) and `nonIntStatsPage` (non-integer value fails the record). -/
theorem stats_extraction_witness :
    findIdxNode isStatSpan (preorder pageBulbi) =
      some (22, Node.elem "span" [("id", "Statistiques")] []) ∧
    findNext (preorder pageBulbi) 22 isStdTable = some (23, bulbiStatsTable) ∧
    parse_html pageBulbi = Except.ok rowBulbi ∧
    (bulbiStatsTable.findAll isTr).foldlM statStep [] = Except.ok rowBulbi.stats ∧
    findIdxNode isStatSpan (preorder nonIntStatsPage) =
      some (20, Node.elem "span" [("id", "Statistiques")] []) ∧
    findNext (preorder nonIntStatsPage) 20 isStdTable = some (21, nonIntStatsTable) ∧
    (nonIntStatsTable.findAll isTr).foldlM statStep ([] : List (String × Int)) =
      Except.error Err.valueError ∧
    parse_html nonIntStatsPage ≠ Except.ok rowBulbi := by
  have hspan1 : findIdxNode isStatSpan (preorder pageBulbi) =
      some (22, Node.elem "span" [("id", "Statistiques")] []) := by rfl
  have hT1 : findNext (preorder pageBulbi) 22 isStdTable =
      some (23, bulbiStatsTable) := by rfl
  have hok : parse_html pageBulbi = Except.ok rowBulbi := by decide
  have hspan2 : findIdxNode isStatSpan (preorder nonIntStatsPage) =
      some (20, Node.elem "span" [("id", "Statistiques")] []) := by rfl
  have hT2 : findNext (preorder nonIntStatsPage) 20 isStdTable =
      some (21, nonIntStatsTable) := by rfl
  have herr : (nonIntStatsTable.findAll isTr).foldlM statStep
      ([] : List (String × Int)) = Except.error Err.valueError := by decide
  exact ⟨hspan1, hT1, hok,
    (((stats_extraction pageBulbi).2.1 22 _ hspan1).2 23 bulbiStatsTable hT1).1 rowBulbi hok,
    hspan2, hT2, herr,
    (((stats_extraction nonIntStatsPage).2.1 20 _ hspan2).2 21 nonIntStatsTable hT2).2
      herr rowBulbi⟩

/-- A list equal to its own map has every member fixed by the mapped
function. -/
lemma eq_map_mem_fixed {α : Type} (f : α → α) :
    ∀ l : List α, l = l.map f → ∀ c ∈ l, f c = c := by
  intro l
  induction l with
  | nil => simp
  | cons a t ih =>
    intro h c hc
    rw [List.map_cons, List.cons.injEq] at h
    obtain ⟨h1, h2⟩ := h
    rcases List.mem_cons.mp hc with rfl | hmem
    · exact h1.symm
    · exact ih h2 c hmem

/-- Every successfully returned roster is the `pyCapitalize` image of
row-extracted raw titles. -/
lemma roster_names_capitalized (fetch : String → Response) (generation : Nat)
    (roster log : List String)
    (h : get_pokemons_from_generation fetch generation = (Except.ok roster, log)) :
    ∃ rows : List Node, roster = (rows.filterMap rowName).map pyCapitalize := by
  simp only [get_pokemons_from_generation] at h
  cases hf : (GENERTAIONS_URL.find? (fun p => p.1 == generation)).map (fun p => p.2) with
  | none =>
    simp only [hf] at h
    simp at h
  | some path =>
    simp only [hf] at h
    by_cases hs : (fetch (POKEPEDIA ++ path)).status = 200
    · rw [if_pos hs] at h
      cases htab : findIdxNode isStdTable (preorder (fetch (POKEPEDIA ++ path)).body) with
      | none =>
        simp only [htab] at h
        simp at h
      | some x =>
        obtain ⟨i, table⟩ := x
        simp only [htab] at h
        rw [Prod.mk.injEq] at h
        obtain ⟨h1, h2⟩ := h
        injection h1 with h1
        exact ⟨table.findAll isTr, h1.symm⟩
    · rw [if_neg hs] at h
      simp at h

/-- C10: every returned roster name is the capitalization of the raw
extracted title, and `pyCapitalize` lowercases every character after
the first — so a raw title with an uppercase letter after position 0 is
not returned verbatim. -/
theorem roster_tail_lowercased (fetch : String → Response) (generation : Nat)
    (roster log : List String)
    (h : get_pokemons_from_generation fetch generation = (Except.ok roster, log)) :
    (∀ s : String, (pyCapitalize s).data.tail = s.data.tail.map Char.toLower) ∧
    (∀ s : String, (∃ c ∈ s.data.tail, Char.toLower c ≠ c) → pyCapitalize s ≠ s) ∧
    (∀ name ∈ roster, ∃ raw, name = pyCapitalize raw) := by
  have htail : ∀ s : String,
      (pyCapitalize s).data.tail = s.data.tail.map Char.toLower := by
    intro s
    obtain ⟨cs⟩ := s
    cases cs with
    | nil => simp [pyCapitalize]
    | cons c rest => simp [pyCapitalize]
  refine ⟨htail, ?_, ?_⟩
  · intro s hc heq
    obtain ⟨c, hmem, hne⟩ := hc
    have h1 := htail s
    rw [heq] at h1
    exact hne (eq_map_mem_fixed Char.toLower s.data.tail h1 c hmem)
  · intro name hname
    obtain ⟨rows, hrost⟩ := roster_names_capitalized fetch generation roster log h
    subst hrost
    obtain ⟨raw, _, hmap⟩ := List.mem_map.mp hname
    exact ⟨raw, hmap.symm⟩

/-- Witness for C10: the raw title "herbiZarre" is returned as
"Herbizarre", not verbatim. -/
theorem roster_tail_lowercased_witness :
    get_pokemons_from_generation genFetch 1 =
      (Except.ok ["Bulbizarre", "Herbizarre", "Florizarre"], [gen1Url]) ∧
    (∀ name ∈ ["Bulbizarre", "Herbizarre", "Florizarre"], ∃ raw, name = pyCapitalize raw) ∧
    pyCapitalize "herbiZarre" = "Herbizarre" ∧
    pyCapitalize "herbiZarre" ≠ "herbiZarre" := by
  have h : get_pokemons_from_generation genFetch 1 =
      (Except.ok ["Bulbizarre", "Herbizarre", "Florizarre"], [gen1Url]) := by decide
  refine ⟨h, (roster_tail_lowercased genFetch 1 _ _ h).2.2, by decide, ?_⟩
  exact (roster_tail_lowercased genFetch 1 _ _ h).2.1 "herbiZarre"
    ⟨'Z', by decide, by decide⟩
